import Mathlib

/-
Verification of the elasticsearch-interface query layer.

The development shallowly embeds `src/elasticsearch_interface/es.py`:
queries are JSON-like trees, the query-fragment builders of
`elasticsearch_interface.utils` (not shipped with the sources we verify)
are modelled from the specification, and each retriever's search method is
translated into a pure function that produces the request forwarded to the
engine together with the post-processing applied to the engine's response.
-/

/-- JSON-like values; the wire shape of every query fragment the layer emits. -/
inductive J where
  | str : String → J
  | num : Rat → J
  | arr : List J → J
  | obj : List (String × J) → J

/-- Entry list for an optional JSON sub-value (omitted when absent). -/
def optJ (k : String) : Option J → List (String × J)
  | some v => [(k, v)]
  | none => []

/-- Entry list for an optional string-valued key. -/
def optS (k : String) : Option String → List (String × J)
  | some s => [(k, J.str s)]
  | none => []

/-- Entry list for an optional numeric key. -/
def optR (k : String) : Option Rat → List (String × J)
  | some r => [(k, J.num r)]
  | none => []

/-- Entry list for an optional natural-number key. -/
def optN (k : String) : Option Nat → List (String × J)
  | some n => [(k, J.num n)]
  | none => []

/-- Modelled from the spec: `multiMatch(fields, text, mode, boost, minimumShouldMatch)`
of the query-fragment builders (`elasticsearch_interface.utils.multi_match_query`,
absent from the sources) — an analyzed match across several fields with
per-field boost suffixes encoded as `field^weight`. -/
def multi_match_query (fields : List String) (text : String)
    (mtype : Option String) (boost : Option Rat) (msm : Option Nat) : J :=
  J.obj [("multi_match", J.obj (
    [("query", J.str text), ("fields", J.arr (fields.map J.str))]
    ++ optS "type" mtype ++ optR "boost" boost ++ optN "minimum_should_match" msm))]

/-- Modelled from the spec: `matchField(field, text, operator)` of the
query-fragment builders (`elasticsearch_interface.utils.match_query`, absent
from the sources) — an analyzed match on one field, `operator = AND` requiring
all text tokens present. -/
def match_query (field : String) (text : String) (operator : Option String) : J :=
  J.obj [("match", J.obj [(field, J.obj (
    [("query", J.str text)] ++ optS "operator" operator))])]

/-- Modelled from the spec: `term(field, value, boost)` of the query-fragment
builders (`elasticsearch_interface.utils.term_query`, absent from the
sources) — an exact match on a non-analyzed field. -/
def term_query (field : String) (value : String) (boost : Rat) : J :=
  J.obj [("term", J.obj [(field, J.obj [("value", J.str value), ("boost", J.num boost)])])]

/-- Modelled from the spec: `disMax(fragments)` of the query-fragment builders
(`elasticsearch_interface.utils.dis_max_query`, absent from the sources) —
takes the single highest sub-score among alternatives rather than summing. -/
def dis_max_query (queries : List J) : J :=
  J.obj [("dis_max", J.obj [("queries", J.arr queries)])]

/-- Modelled from the spec: `boolean(must, should, filter, minimumShouldMatch)`
of the query-fragment builders (`elasticsearch_interface.utils.bool_query`,
absent from the sources) — boolean composition with non-scoring `filter`
clauses and scoring `should`/`must` clauses. -/
def bool_query (must should filt : Option J) (msm : Option Nat) : J :=
  J.obj [("bool", J.obj (
    optJ "must" must ++ optJ "should" should ++ optJ "filter" filt
    ++ optN "minimum_should_match" msm))]

/-- Value accepted by the term-based filter builder: absent, a single value,
or a list of values (mirroring Python `None` / `str` / `list`). -/
inductive FilterVal where
  | null : FilterVal
  | one : String → FilterVal
  | many : List String → FilterVal

/-- Modelled from the spec: `elasticsearch_interface.utils.term_based_filter`
(absent from the sources) — for each field, an exact filter for a singular
value, a set-membership filter for a list of values, nothing for `None`. -/
def term_based_filter (entries : List (String × FilterVal)) : List J :=
  entries.filterMap (fun e =>
    match e.2 with
    | FilterVal.null => none
    | FilterVal.one s => some (J.obj [("term", J.obj [(e.1, J.str s)])])
    | FilterVal.many l => some (J.obj [("terms", J.obj [(e.1, J.arr (l.map J.str))])]))

/-- Translated from `ESConceptDetection._search_mediawiki` (es.py, lines
213-242): the mediawiki-style boolean query built for a concept-detection
search over the given query text. -/
def search_mediawiki_query (text : String) : J :=
  bool_query none
    (some (J.arr [
      multi_match_query ["all_near_match^10", "all_near_match_asciifolding^7.5"] text none none none,
      bool_query none
        (some (J.arr [
          multi_match_query ["title^3", "title.plain^1"] text (some "most_fields") (some 0.3) (some 1),
          multi_match_query ["category^3", "category.plain^1"] text (some "most_fields") (some 0.05) (some 1),
          multi_match_query ["heading^3", "heading.plain^1"] text (some "most_fields") (some 0.05) (some 1),
          multi_match_query ["auxiliary_text^3", "auxiliary_text.plain^1"] text (some "most_fields") (some 0.05) (some 1),
          multi_match_query ["file_text^3", "file_text.plain^1"] text (some "most_fields") (some 0.5) (some 1),
          dis_max_query [
            multi_match_query ["redirect^3", "redirect.plain^1"] text (some "most_fields") (some 0.27) (some 1),
            multi_match_query ["suggest"] text (some "most_fields") (some 0.2) (some 1)],
          dis_max_query [
            multi_match_query ["text^3", "text.plain^1"] text (some "most_fields") (some 0.6) (some 1),
            multi_match_query ["opening_text^3", "opening_text.plain^1"] text (some "most_fields") (some 0.5) (some 1)]]))
        (some (J.arr [
          bool_query none
            (some (J.arr [
              match_query "all" text (some "and"),
              match_query "all.plain" text (some "and")]))
            none none]))
        none]))
    none none

/-- Written from the claim's words: the expected shape of the concept-detection
query — a boolean query whose `should` list has exactly the two paths the claim
describes, spelled out as a raw JSON literal. -/
def mediawiki_query_claim (text : String) : J :=
  J.obj [("bool", J.obj [("should", J.arr [
    J.obj [("multi_match", J.obj [
      ("query", J.str text),
      ("fields", J.arr [J.str "all_near_match^10", J.str "all_near_match_asciifolding^7.5"])])],
    J.obj [("bool", J.obj [
      ("should", J.arr [
        J.obj [("multi_match", J.obj [("query", J.str text), ("fields", J.arr [J.str "title^3", J.str "title.plain^1"]), ("type", J.str "most_fields"), ("boost", J.num 0.3), ("minimum_should_match", J.num 1)])],
        J.obj [("multi_match", J.obj [("query", J.str text), ("fields", J.arr [J.str "category^3", J.str "category.plain^1"]), ("type", J.str "most_fields"), ("boost", J.num 0.05), ("minimum_should_match", J.num 1)])],
        J.obj [("multi_match", J.obj [("query", J.str text), ("fields", J.arr [J.str "heading^3", J.str "heading.plain^1"]), ("type", J.str "most_fields"), ("boost", J.num 0.05), ("minimum_should_match", J.num 1)])],
        J.obj [("multi_match", J.obj [("query", J.str text), ("fields", J.arr [J.str "auxiliary_text^3", J.str "auxiliary_text.plain^1"]), ("type", J.str "most_fields"), ("boost", J.num 0.05), ("minimum_should_match", J.num 1)])],
        J.obj [("multi_match", J.obj [("query", J.str text), ("fields", J.arr [J.str "file_text^3", J.str "file_text.plain^1"]), ("type", J.str "most_fields"), ("boost", J.num 0.5), ("minimum_should_match", J.num 1)])],
        J.obj [("dis_max", J.obj [("queries", J.arr [
          J.obj [("multi_match", J.obj [("query", J.str text), ("fields", J.arr [J.str "redirect^3", J.str "redirect.plain^1"]), ("type", J.str "most_fields"), ("boost", J.num 0.27), ("minimum_should_match", J.num 1)])],
          J.obj [("multi_match", J.obj [("query", J.str text), ("fields", J.arr [J.str "suggest"]), ("type", J.str "most_fields"), ("boost", J.num 0.2), ("minimum_should_match", J.num 1)])]])])],
        J.obj [("dis_max", J.obj [("queries", J.arr [
          J.obj [("multi_match", J.obj [("query", J.str text), ("fields", J.arr [J.str "text^3", J.str "text.plain^1"]), ("type", J.str "most_fields"), ("boost", J.num 0.6), ("minimum_should_match", J.num 1)])],
          J.obj [("multi_match", J.obj [("query", J.str text), ("fields", J.arr [J.str "opening_text^3", J.str "opening_text.plain^1"]), ("type", J.str "most_fields"), ("boost", J.num 0.5), ("minimum_should_match", J.num 1)])]])])]]),
      ("filter", J.arr [
        J.obj [("bool", J.obj [("should", J.arr [
          J.obj [("match", J.obj [("all", J.obj [("query", J.str text), ("operator", J.str "and")])])],
          J.obj [("match", J.obj [("all.plain", J.obj [("query", J.str text), ("operator", J.str "and")])])]])])]])])]])])]

/-- Modelled from the spec: `should` clauses of a boolean query are scoring
and contribute additively when several fire. -/
def should_combine (scores : List Rat) : Rat := scores.sum

/-- Modelled from the spec: `disMax` takes the single highest sub-score among
alternatives rather than summing them. -/
def dis_max_combine : List Rat → Rat
  | [] => 0
  | s :: rest => rest.foldl max s

/-- Translated from `ESGraphSearch._search_graphsearch.build_fields` (es.py,
lines 263-273): the per-language analyzed fields of a graph-node search. -/
def build_fields_graph (lang : String) : List String :=
  ["name." ++ lang,
   "name." ++ lang ++ ".keyword",
   "name." ++ lang ++ ".raw",
   "name." ++ lang ++ ".trigram",
   "name." ++ lang ++ ".sayt._2gram",
   "name." ++ lang ++ ".sayt._3gram",
   "short_description." ++ lang,
   "long_description." ++ lang ++ "^0.001"]

/-- Translated from `ESGraphSearch._search_graphsearch` (es.py, lines
283-303): the boolean relevance part of the graph-node search query. -/
def graphsearch_bool (texts : List String) (node_type : FilterVal) : J :=
  bool_query none
    (some (J.arr (
      texts.map (fun text => term_query "doc_id.keyword" text 10)
      ++ [dis_max_query [
        bool_query none
          (some (J.arr (texts.map (fun text => multi_match_query (build_fields_graph "en") text none none none))))
          none (some 1),
        bool_query none
          (some (J.arr (texts.map (fun text => multi_match_query (build_fields_graph "fr") text none none none))))
          none (some 1)]])))
    (some (J.arr (term_based_filter
      [("doc_institution.keyword", FilterVal.many ["EPFL", "Ont"]),
       ("doc_type.keyword", node_type)])))
    (some 1)

/-- Translated from `ESGraphSearch._search_graphsearch` (es.py, lines
279-305): the full graph-node search query, a function-score wrapper around
the boolean relevance query. -/
def graphsearch_query (texts : List String) (node_type : FilterVal) : J :=
  J.obj [("function_score", J.obj [
    ("score_mode", J.str "multiply"),
    ("functions", J.arr [J.obj [("field_value_factor", J.obj [("field", J.str "degree_score")])]]),
    ("query", graphsearch_bool texts node_type)])]

/-- Translated from `ESGraphSearch._search_graphsearch` (es.py, line 311). -/
def node_fields : List String := ["doc_type", "doc_id", "name", "short_description"]

/-- Translated from `ESGraphSearch._search_graphsearch` (es.py, line 313). -/
def link_fields : List String :=
  ["link_type", "link_id", "link_name", "link_rank", "link_short_description"]

/-- Translated from `ESGraphSearch._search_graphsearch` (es.py, lines
315-325), in Python dict insertion order. -/
def type_specific_fields : List (String × List String) :=
  [("course", ["latest_academic_year"]),
   ("lecture", ["video_duration"]),
   ("mooc", ["level", "domain", "language", "platform"]),
   ("person", ["gender", "is_at_epfl"]),
   ("publication", ["year", "publisher", "published_in"]),
   ("unit", ["is_research_unit", "is_active_unit"]),
   ("category", ["depth"]),
   ("concept", []),
   ("startup", [])]

/-- Translated from `ESGraphSearch._search_graphsearch` (es.py, lines
327-334): the projected source fields.  The comprehension iterates over the
whole `type_specific_fields` table, so the projection does not depend on the
requested node type. -/
def graphsearch_fields (return_links : Bool) : List String :=
  node_fields ++ (type_specific_fields.map Prod.snd).flatten
  ++ (if return_links then
        ["links"] ++ link_fields.map (fun f => "links." ++ f)
        ++ ((type_specific_fields.map Prod.snd).flatten).map (fun f => "links." ++ f)
      else [])

/-- Object-field lookup on a JSON value (first entry with the given key). -/
def getObj (j : J) (k : String) : Option J :=
  match j with
  | J.obj l => (l.find? (fun p => p.1 == k)).map (fun p => p.2)
  | _ => none

/-- Two-level object-field lookup. -/
def getObj2 (j : J) (k1 k2 : String) : Option J :=
  (getObj j k1).bind (fun x => getObj x k2)

/-- Modelled from the spec: engine-side fusion of the base relevance score
with the ranking-function value, keyed by the function-score mode. -/
def function_score_apply (mode : String) (base fv : Rat) : Rat :=
  if mode == "multiply" then base * fv
  else if mode == "sum" then base + fv
  else fv

/-- Final score of a graph-search hit: the mode recorded in the composed
query, applied to the hit's base relevance score and its degree value. -/
def graphsearch_final_score (texts : List String) (node_type : FilterVal)
    (base degree : Rat) : Rat :=
  match getObj2 (graphsearch_query texts node_type) "function_score" "score_mode" with
  | some (J.str mode) => function_score_apply mode base degree
  | _ => base

/-- Translated from `ESLex._search_lex.build_fields` (es.py, lines 349-357). -/
def build_fields_lex (lang : String) : List String :=
  ["content." ++ lang,
   "content." ++ lang ++ ".keyword",
   "content." ++ lang ++ ".raw",
   "content." ++ lang ++ ".trigram",
   "content." ++ lang ++ ".sayt._2gram",
   "content." ++ lang ++ ".sayt._3gram"]

/-- Translated from `ESLex._search_lex` (es.py, lines 363-384): the lexical
query of a lexicon search.  Note that each language clause passes a single
multi-match object (not a list) as its `should` value, exactly as the Python
code does. -/
def lex_query (text : String) (lang_filter : FilterVal) : J :=
  bool_query none
    (some (J.arr [
      dis_max_query [
        bool_query none (some (multi_match_query (build_fields_lex "en") text none none none)) none (some 1),
        bool_query none (some (multi_match_query (build_fields_lex "fr") text none none none)) none (some 1)]]))
    (match lang_filter with
     | FilterVal.null => none
     | lf => some (J.arr (term_based_filter [("language.keyword", lf)])))
    (some 1)

/-- Translated from `ESServiceDesk._search_servicedesk.build_fields` (es.py,
lines 405-417). -/
def build_fields_servicedesk (lang : String) : List String :=
  ["content." ++ lang,
   "content." ++ lang ++ ".keyword",
   "content." ++ lang ++ ".raw",
   "content." ++ lang ++ ".trigram",
   "content." ++ lang ++ ".sayt._2gram",
   "content." ++ lang ++ ".sayt._3gram",
   "description." ++ lang,
   "description." ++ lang ++ ".keyword",
   "description." ++ lang ++ ".raw",
   "description." ++ lang ++ ".trigram"]

/-- Translated from `ESServiceDesk._search_servicedesk` (es.py, lines
423-445): the lexical query of a service-desk search. -/
def servicedesk_query (text : String) (lang_filter cat_filter : FilterVal) : J :=
  bool_query none
    (some (J.arr [
      dis_max_query [
        bool_query none (some (multi_match_query (build_fields_servicedesk "en") text none none none)) none (some 1),
        bool_query none (some (multi_match_query (build_fields_servicedesk "fr") text none none none)) none (some 1)]]))
    (match lang_filter, cat_filter with
     | FilterVal.null, FilterVal.null => none
     | lf, cf => some (J.arr (term_based_filter
         [("language.keyword", lf), ("category.keyword", cf)])))
    (some 1)

/-- Translated from `ESLex._search_lex` / `ESServiceDesk._search_servicedesk`
(es.py, lines 385-392 and 446-453): the knn spec attached when an embedding
vector is supplied, null otherwise. -/
def lex_knn (embedding : Option (List Rat)) : Option J :=
  match embedding with
  | some v => some (J.obj [
      ("field", J.str "embedding"),
      ("query_vector", J.arr (v.map J.num)),
      ("k", J.num 10)])
  | none => none

/-- A hit returned by the engine: projected stored fields, relevance score,
and the hit's raw vector payload. -/
structure Hit where
  source : List (String × J)
  score : Rat
  embedding : J

instance : Inhabited Hit := ⟨⟨[], 0, J.arr []⟩⟩

/-- Errors a search call can surface.  `backendUnavailable` is the typed
error of the spec's taxonomy; `attributeError` models the Python
`AttributeError` raised when a method is invoked on a `None` client. -/
inductive ESError where
  | backendUnavailable : ESError
  | attributeError : ESError
deriving DecidableEq

/-- The engine connection: a function from requests to hit lists (the external
search engine is out of scope; any such function may stand for it). -/
structure ESRequest where
  query : J
  knn : Option J
  source : Option (List String)
  size : Nat

/-- A live client, as the core sees it: it answers search requests. -/
def Client : Type := ESRequest → List Hit

/-- State of an `ESIndexBuilder` / retriever object: the connection handle
(`None` when construction failed) and the index name (es.py, lines 24-39). -/
structure ESState where
  client : Option Client
  index : String

/-- Translated from `AbstractESRetriever._search` (es.py, lines 186-189):
forwards the request to `self.client.search`.  When `self.client` is `None`
(failed construction) the Python attribute access raises `AttributeError`,
modelled as the `attributeError` outcome. -/
def es_search (st : ESState) (req : ESRequest) : ESState × Except ESError (List Hit) :=
  match st.client with
  | none => (st, Except.error ESError.attributeError)
  | some c => (st, Except.ok (c req))

/-- Connection parameters validated by `ESIndexBuilder.__init__` (es.py,
lines 24-39): the five config keys, with the cafile required to exist. -/
def valid_conn (file_exists : String → Bool) (config : List (String × String)) :
    Option (String × String × String × String × String) :=
  match config.lookup "host", config.lookup "port", config.lookup "username",
        config.lookup "password", config.lookup "cafile" with
  | some h, some p, some u, some pw, some ca =>
      if file_exists ca then some (h, p, u, pw, ca) else none
  | _, _, _, _, _ => none

/-- Translated from `ESIndexBuilder.__init__` (es.py, lines 24-39): a missing
config key (Python `KeyError`) or a missing cafile (`FileNotFoundError`) is
caught and leaves `self.client = None`; otherwise the external constructor
(`connect`, standing for the `Elasticsearch` class) yields the client. -/
def es_init (connect : String → String → String → String → String → Client)
    (file_exists : String → Bool) (config : List (String × String))
    (index : String) : ESState :=
  match valid_conn file_exists config with
  | some (h, p, u, pw, ca) => { client := some (connect h p u pw ca), index := index }
  | none => { client := none, index := index }

/-- A configuration `ESIndexBuilder.__init__` treats as invalid: a required
key is absent, or the cafile does not exist. -/
def invalid_config (file_exists : String → Bool) (config : List (String × String)) : Prop :=
  config.lookup "host" = none ∨ config.lookup "port" = none
  ∨ config.lookup "username" = none ∨ config.lookup "password" = none
  ∨ config.lookup "cafile" = none
  ∨ (∃ ca, config.lookup "cafile" = some ca ∧ file_exists ca = false)

/-- Lookup of a key in a hit's stored-field mapping. -/
def getKey (src : List (String × J)) (k : String) : Option J :=
  (src.find? (fun p => p.1 == k)).map (fun p => p.2)

/-- Removal of a key from a hit's stored-field mapping. -/
def eraseKey (k : String) (src : List (String × J)) : List (String × J) :=
  src.filter (fun p => !(p.1 == k))

/-- Setting a key in a hit's stored-field mapping (replacing any previous
binding). -/
def setKey (k : String) (v : J) (src : List (String × J)) : List (String × J) :=
  (k, v) :: eraseKey k src

/-- Modelled from the spec: `includeOrExcludeScore` on a single hit — if the
flag is set the hit's relevance score is attached as an extra `score` field of
the stored-field mapping, otherwise that field is stripped; no other key is
touched (`elasticsearch_interface.utils.include_or_exclude_scores`, absent
from the sources). -/
def ios_hit (flag : Bool) (h : Hit) : Hit :=
  if flag then { h with source := setKey "score" (J.num h.score) h.source }
  else { h with source := eraseKey "score" h.source }

/-- Modelled from the spec: `include_or_exclude_scores(hits, return_scores)`
applies the score shaping to every hit, preserving order. -/
def include_or_exclude_scores (hits : List Hit) (flag : Bool) : List Hit :=
  hits.map (ios_hit flag)

/-- Modelled from the spec: `includeOrExcludeVector` on a single hit — the
symmetric operation for the vector payload, under the `embedding` key
(`elasticsearch_interface.utils.include_or_exclude_embeddings`, absent from
the sources). -/
def ioe_hit (flag : Bool) (h : Hit) : Hit :=
  if flag then { h with source := setKey "embedding" h.embedding h.source }
  else { h with source := eraseKey "embedding" h.source }

/-- Modelled from the spec: `include_or_exclude_embeddings(hits, flag)`
applies the vector shaping to every hit, preserving order. -/
def include_or_exclude_embeddings (hits : List Hit) (flag : Bool) : List Hit :=
  hits.map (ioe_hit flag)

/-- Translated from `ESConceptDetection.search` / `_search_mediawiki` (es.py,
lines 244-258): the request forwarded to the engine. -/
def search_mediawiki_request (text : String) (limit : Nat) : ESRequest :=
  { query := search_mediawiki_query text, knn := none, source := none, size := limit }

/-- Translated from `ESConceptDetection.search` (es.py, lines 246-258),
threading the object state through the call. -/
def ESConceptDetection_search (st : ESState) (text : String) (limit : Nat) :
    ESState × Except ESError (List Hit) :=
  es_search st (search_mediawiki_request text limit)

/-- Translated from `ESGraphSearch._search_graphsearch` (es.py, lines
262-336): the request forwarded to the engine, with the type-independent
source-field projection. -/
def search_graphsearch_request (texts : List String) (node_type : FilterVal)
    (limit : Nat) (return_links : Bool) : ESRequest :=
  { query := graphsearch_query texts node_type, knn := none,
    source := some (graphsearch_fields return_links), size := limit }

/-- Translated from `ESGraphSearch.search` (es.py, lines 338-344): a plain
string is normalized to a singleton list before the query is built, and the
score shaping is applied to the hits. -/
def ESGraphSearch_search (st : ESState) (texts : Sum String (List String))
    (node_type : FilterVal) (limit : Nat) (return_links return_scores : Bool) :
    ESState × Except ESError (List Hit) :=
  let ts := match texts with
    | Sum.inl t => [t]
    | Sum.inr l => l
  let r := es_search st (search_graphsearch_request ts node_type limit return_links)
  (r.1, r.2.map (fun hits => include_or_exclude_scores hits return_scores))

/-- Translated from `ESLex._search_lex` (es.py, lines 348-394): the request
forwarded to the engine. -/
def search_lex_request (text : String) (embedding : Option (List Rat))
    (limit : Nat) (lang : FilterVal) : ESRequest :=
  { query := lex_query text lang, knn := lex_knn embedding, source := none, size := limit }

/-- Translated from `ESLex.search` (es.py, lines 396-400). -/
def ESLex_search (st : ESState) (text : String) (embedding : Option (List Rat))
    (lang : FilterVal) (limit : Nat) (return_scores return_embeddings : Bool) :
    ESState × Except ESError (List Hit) :=
  let r := es_search st (search_lex_request text embedding limit lang)
  (r.1, r.2.map (fun hits =>
    include_or_exclude_embeddings (include_or_exclude_scores hits return_scores) return_embeddings))

/-- Translated from `ESServiceDesk._search_servicedesk` (es.py, lines
404-455): the request forwarded to the engine. -/
def search_servicedesk_request (text : String) (embedding : Option (List Rat))
    (limit : Nat) (lang category : FilterVal) : ESRequest :=
  { query := servicedesk_query text lang category, knn := lex_knn embedding,
    source := none, size := limit }

/-- Translated from `ESServiceDesk.search` (es.py, lines 457-462). -/
def ESServiceDesk_search (st : ESState) (text : String) (embedding : Option (List Rat))
    (lang category : FilterVal) (limit : Nat) (return_scores return_embeddings : Bool) :
    ESState × Except ESError (List Hit) :=
  let r := es_search st (search_servicedesk_request text embedding limit lang category)
  (r.1, r.2.map (fun hits =>
    include_or_exclude_embeddings (include_or_exclude_scores hits return_scores) return_embeddings))

/-- Modelled from the spec: the engine-side fetch behind `getNodeset` (the
node-set batch lookup of the node-search strategy, absent from the sources).
The backend index is an association list of id/document pairs; a direct
lookup returns the matching documents in backend storage order (the engine
does not preserve the caller's id order).  Id lists longer than 1000 are
recursively split into two halves whose results are concatenated. -/
def fetchNodes (backend : List (String × String)) (ids : List String) :
    List (String × String) :=
  if _h : ids.length ≤ 1000 then
    backend.filter (fun p => decide (p.1 ∈ ids))
  else
    fetchNodes backend (ids.take (ids.length / 2))
    ++ fetchNodes backend (ids.drop (ids.length / 2))
termination_by ids.length
decreasing_by
  · simp only [List.length_take]
    omega
  · simp only [List.length_drop]
    omega

/-- Modelled from the spec: `getNodeset` — fetch (with recursive splitting
above the 1000-id cap), then re-sort the results into the caller's original
id order, one hit per found id, none for absent ids. -/
def getNodeset (backend : List (String × String)) (ids : List String) :
    List (String × String) :=
  ids.filterMap (fun i => (fetchNodes backend ids).find? (fun p => p.1 == i))

/-- Modelled from the spec: the same lookup issued as one single direct
query over the whole id set, with the same re-sorting step. -/
def getNodesetDirect (backend : List (String × String)) (ids : List String) :
    List (String × String) :=
  ids.filterMap (fun i =>
    (backend.filter (fun p => decide (p.1 ∈ ids))).find? (fun p => p.1 == i))

/-- Written from the claim's words: the lexical part of the graph-node
search — a disjunction-max over exactly two language sub-clauses, one boolean
should-clause per language (English and French), each a union of multi-matches
over the per-language name/short-description/long-description fields
(including trigram and n-gram sub-fields, long_description down-weighted),
with minimum_should_match 1. -/
def graphsearch_lexical_claim (texts : List String) : J :=
  J.obj [("dis_max", J.obj [("queries", J.arr [
    J.obj [("bool", J.obj [
      ("should", J.arr (texts.map (fun t => J.obj [("multi_match", J.obj [
        ("query", J.str t),
        ("fields", J.arr [J.str "name.en", J.str "name.en.keyword", J.str "name.en.raw",
          J.str "name.en.trigram", J.str "name.en.sayt._2gram", J.str "name.en.sayt._3gram",
          J.str "short_description.en", J.str "long_description.en^0.001"])])]))),
      ("minimum_should_match", J.num 1)])],
    J.obj [("bool", J.obj [
      ("should", J.arr (texts.map (fun t => J.obj [("multi_match", J.obj [
        ("query", J.str t),
        ("fields", J.arr [J.str "name.fr", J.str "name.fr.keyword", J.str "name.fr.raw",
          J.str "name.fr.trigram", J.str "name.fr.sayt._2gram", J.str "name.fr.sayt._3gram",
          J.str "short_description.fr", J.str "long_description.fr^0.001"])])]))),
      ("minimum_should_match", J.num 1)])]])])]


lemma findq_filter {α : Type} (l : List α) (p q : α → Bool)
    (h : ∀ x, p x = true → q x = true) : (l.filter q).find? p = l.find? p := by
  induction l with
  | nil => rfl
  | cons a t ih =>
    by_cases hq : q a
    · rw [List.filter_cons_of_pos hq]
      by_cases hp : p a
      · rw [List.find?_cons_of_pos _ hp, List.find?_cons_of_pos _ hp]
      · rw [List.find?_cons_of_neg _ hp, List.find?_cons_of_neg _ hp, ih]
    · have hp : ¬ p a = true := fun hpa => hq (h a hpa)
      rw [List.filter_cons_of_neg hq, ih, List.find?_cons_of_neg _ hp]

lemma mem_fetchNodes (backend : List (String × String)) :
    ∀ (n : Nat) (ids : List String), ids.length ≤ n → ∀ p : String × String,
      (p ∈ fetchNodes backend ids ↔ p ∈ backend ∧ p.1 ∈ ids) := by
  intro n
  induction n with
  | zero =>
    intro ids hlen p
    have hids : ids = [] := List.length_eq_zero.mp (Nat.le_zero.mp hlen)
    subst hids
    rw [fetchNodes]
    simp
  | succ n ih =>
    intro ids hlen p
    rw [fetchNodes]
    by_cases hle : ids.length ≤ 1000
    · rw [dif_pos hle]
      simp [List.mem_filter]
    · rw [dif_neg hle]
      have hsplit : ∀ x : String, x ∈ ids ↔
          x ∈ ids.take (ids.length / 2) ∨ x ∈ ids.drop (ids.length / 2) := by
        intro x
        conv_lhs => rw [← List.take_append_drop (ids.length / 2) ids]
        exact List.mem_append
      rw [List.mem_append,
        ih _ (by simp only [List.length_take] ; omega) p,
        ih _ (by simp only [List.length_drop] ; omega) p,
        hsplit p.1]
      tauto

lemma findq_fetchNodes (backend : List (String × String)) :
    ∀ (n : Nat) (ids : List String), ids.length ≤ n → ids.Nodup → ∀ i ∈ ids,
      (fetchNodes backend ids).find? (fun p => p.1 == i) =
        backend.find? (fun p => p.1 == i) := by
  intro n
  induction n with
  | zero =>
    intro ids hlen _ i hi
    have hids : ids = [] := List.length_eq_zero.mp (Nat.le_zero.mp hlen)
    subst hids
    exact absurd hi (List.not_mem_nil i)
  | succ n ih =>
    intro ids hlen hnd i hi
    rw [fetchNodes]
    by_cases hle : ids.length ≤ 1000
    · rw [dif_pos hle]
      apply findq_filter
      intro x hx
      have hx1 : x.1 = i := by simpa using hx
      simp [hx1, hi]
    · rw [dif_neg hle]
      have htd : ids.take (ids.length / 2) ++ ids.drop (ids.length / 2) = ids :=
        List.take_append_drop ..
      have hnd2 : (ids.take (ids.length / 2) ++ ids.drop (ids.length / 2)).Nodup := by
        rw [htd] ; exact hnd
      obtain ⟨hndt, hndd, hdisj⟩ := List.nodup_append.mp hnd2
      have hlt : (ids.take (ids.length / 2)).length ≤ n := by
        simp only [List.length_take] ; omega
      have hld : (ids.drop (ids.length / 2)).length ≤ n := by
        simp only [List.length_drop] ; omega
      have hi2 : i ∈ ids.take (ids.length / 2) ∨ i ∈ ids.drop (ids.length / 2) := by
        rw [← List.mem_append, htd] ; exact hi
      rw [List.find?_append]
      rcases hi2 with hit | hid
      · rw [ih _ hlt hndt i hit]
        cases hfb : backend.find? (fun p => p.1 == i) with
        | some x => rfl
        | none =>
          rw [Option.none_or]
          apply List.find?_eq_none.mpr
          intro x hx
          have hxb := (mem_fetchNodes backend n _ hld x).mp hx
          exact List.find?_eq_none.mp hfb x hxb.1
      · have hit : i ∉ ids.take (ids.length / 2) := fun hmem => hdisj hmem hid
        have hnone : (fetchNodes backend (ids.take (ids.length / 2))).find?
            (fun p => p.1 == i) = none := by
          apply List.find?_eq_none.mpr
          intro x hx hpx
          have hxt := (mem_fetchNodes backend n _ hlt x).mp hx
          have hx1 : x.1 = i := by simpa using hpx
          exact hit (hx1 ▸ hxt.2)
        rw [hnone, Option.none_or]
        exact ih _ hld hndd i hid

/-- C2: for every non-empty id list with unique ids, `getNodeset` returns one
result per id present in the backend, none for absent ids, in exactly the
order of the input id list (its output is the input-ordered association of
ids to their backend entries); and the recursive halve-query-concatenate
strategy produces the same results as a single direct lookup over the whole
id set. -/
theorem getNodeset_order_and_split (backend : List (String × String))
    (ids : List String) (_hne : ids ≠ []) (hnd : ids.Nodup) :
    getNodeset backend ids = ids.filterMap (fun i => backend.find? (fun p => p.1 == i))
    ∧ getNodeset backend ids = getNodesetDirect backend ids := by
  have h1 : getNodeset backend ids =
      ids.filterMap (fun i => backend.find? (fun p => p.1 == i)) := by
    unfold getNodeset
    apply List.filterMap_congr
    intro i hi
    exact findq_fetchNodes backend ids.length ids le_rfl hnd i hi
  have h2 : getNodesetDirect backend ids =
      ids.filterMap (fun i => backend.find? (fun p => p.1 == i)) := by
    unfold getNodesetDirect
    apply List.filterMap_congr
    intro i hi
    apply findq_filter
    intro x hx
    have hx1 : x.1 = i := by simpa using hx
    simp [hx1, hi]
  exact ⟨h1, h1.trans h2.symm⟩

/-- Witness for C2: the spec's own end-to-end scenario — ids `["a","b","c"]`
against a backend storing hits for "b" and "a" in that order yields
`["a","b"]`-ordered results with "c" silently dropped. -/
theorem getNodeset_order_and_split_witness :
    ((["a", "b", "c"] : List String) ≠ [] ∧ (["a", "b", "c"] : List String).Nodup)
    ∧ getNodeset [("b", "B"), ("a", "A")] ["a", "b", "c"] = [("a", "A"), ("b", "B")] :=
  ⟨⟨by decide, by decide⟩, by
    rw [(getNodeset_order_and_split [("b", "B"), ("a", "A")] ["a", "b", "c"]
      (by decide) (by decide)).1]
    decide⟩

/-- C1: for every query text, the concept-detection search builds exactly the
boolean query the claim describes — a `should` list whose two paths are the
near-match multi-match (boosts 10 and 7.5) and the filtered-aggregate boolean
sub-query with its weighted `should` clauses — and the two paths are combined
with `should`, both contributing (additively) to the score when both fire. -/
theorem concept_detection_query_structure (text : String) :
    search_mediawiki_query text = mediawiki_query_claim text
    ∧ (∀ a b : Rat, should_combine [a, b] = a + b) := by
  refine ⟨rfl, fun a b => ?_⟩
  simp [should_combine]

/-- C4: the graph-node search query is a function-score whose mode is
`multiply` (never `sum` or `replace`) with the single field-value-factor
function on `degree_score`, so the final score of a hit equals the base
relevance score multiplied by the document's degree value. -/
theorem graphsearch_function_score_multiply (texts : List String)
    (node_type : FilterVal) (base degree : Rat) :
    getObj2 (graphsearch_query texts node_type) "function_score" "score_mode"
      = some (J.str "multiply")
    ∧ getObj2 (graphsearch_query texts node_type) "function_score" "functions"
      = some (J.arr [J.obj [("field_value_factor", J.obj [("field", J.str "degree_score")])]])
    ∧ graphsearch_final_score texts node_type base degree = base * degree
    ∧ getObj2 (graphsearch_query texts node_type) "function_score" "score_mode"
      ≠ some (J.str "sum")
    ∧ getObj2 (graphsearch_query texts node_type) "function_score" "score_mode"
      ≠ some (J.str "replace") := by
  refine ⟨rfl, rfl, rfl, ?_, ?_⟩ <;>
    · intro hc
      rw [show getObj2 (graphsearch_query texts node_type) "function_score" "score_mode"
            = some (J.str "multiply") from rfl] at hc
      injection hc with h1
      injection h1 with h2
      exact absurd h2 (by decide)

/-- C6: the `should` list of the graph-node boolean query consists of the
per-text exact doc-id matches followed by exactly the claimed lexical part — a
disjunction-max over exactly two language sub-clauses (English and French) of
per-language multi-matches with minimum_should_match 1 — and the disMax
combinator contributes only the best sub-score. -/
theorem graphsearch_language_dismax (texts : List String) (node_type : FilterVal) :
    getObj2 (graphsearch_bool texts node_type) "bool" "should"
      = some (J.arr (texts.map (fun t => term_query "doc_id.keyword" t 10)
          ++ [graphsearch_lexical_claim texts]))
    ∧ (∀ a b : Rat, dis_max_combine [a, b] = max a b) :=
  ⟨rfl, fun _ _ => rfl⟩

/-- C7: the lexicon and service-desk searches attach a knn spec (field
`embedding`, the supplied vector, k = 10) exactly when an embedding is
supplied, and a null knn argument otherwise. -/
theorem lex_servicedesk_knn_spec (text : String) (embedding : Option (List Rat))
    (limit : Nat) (lang category : FilterVal) :
    (search_lex_request text embedding limit lang).knn
      = (match embedding with
         | some v => some (J.obj [("field", J.str "embedding"),
             ("query_vector", J.arr (v.map J.num)), ("k", J.num 10)])
         | none => none)
    ∧ (search_servicedesk_request text embedding limit lang category).knn
      = (match embedding with
         | some v => some (J.obj [("field", J.str "embedding"),
             ("query_vector", J.arr (v.map J.num)), ("k", J.num 10)])
         | none => none) := by
  cases embedding <;> exact ⟨rfl, rfl⟩

/-- Written from the claim's correction: the source fields actually projected
by the graph-node search — the core fields plus the extra fields of every
entity type in the table (independent of the requested type), and, when
linked-node data is requested, the `links` object, the link fields and the
same full type-field expansion under a `links.` prefix. -/
def graphsearch_fields_claim (return_links : Bool) : List String :=
  ["doc_type", "doc_id", "name", "short_description",
   "latest_academic_year", "video_duration", "level", "domain", "language",
   "platform", "gender", "is_at_epfl", "year", "publisher", "published_in",
   "is_research_unit", "is_active_unit", "depth"]
  ++ (if return_links then
        ["links", "links.link_type", "links.link_id", "links.link_name",
         "links.link_rank", "links.link_short_description",
         "links.latest_academic_year", "links.video_duration", "links.level",
         "links.domain", "links.language", "links.platform", "links.gender",
         "links.is_at_epfl", "links.year", "links.publisher", "links.published_in",
         "links.is_research_unit", "links.is_active_unit", "links.depth"]
      else [])

/-- C5 counterexample: a graph-node search for type `course` does not project
only the core fields plus `latest_academic_year` — the projection flattens the
whole per-type table, so it also contains e.g. `gender` (a `person` field) and
`video_duration` (a `lecture` field). -/
theorem graphsearch_fields_counterexample :
    (search_graphsearch_request ["machine learning"] (FilterVal.one "course") 10 false).source
      = some (graphsearch_fields false)
    ∧ "gender" ∈ graphsearch_fields false
    ∧ "video_duration" ∈ graphsearch_fields false
    ∧ graphsearch_fields false ≠ node_fields ++ ["latest_academic_year"] :=
  ⟨rfl, by decide, by decide, by decide⟩

/-- C5 amended: for every graph-node search call the projected source-field
list is independent of the requested entity type — it is the fixed core field
set plus the additional fields of every type in the table, and when
linked-node data is requested the link fields and the same full type-keyed
expansion are added under a `links.` prefix. -/
theorem graphsearch_fields_amended (texts : List String) (node_type : FilterVal)
    (limit : Nat) (return_links : Bool) :
    (search_graphsearch_request texts node_type limit return_links).source
      = some (graphsearch_fields_claim return_links) := by
  cases return_links <;> rfl

lemma es_search_fst (st : ESState) (req : ESRequest) : (es_search st req).1 = st := by
  cases st with
  | mk c i => cases c <;> rfl

/-- C9: no search method mutates the retriever's state — after any search
call, the connection handle and index name are exactly what they were after
construction. -/
theorem search_preserves_state (st : ESState) (text : String) (limit : Nat)
    (texts : Sum String (List String)) (node_type : FilterVal)
    (return_links return_scores return_embeddings : Bool)
    (embedding : Option (List Rat)) (lang category : FilterVal) :
    (ESConceptDetection_search st text limit).1 = st
    ∧ (ESGraphSearch_search st texts node_type limit return_links return_scores).1 = st
    ∧ (ESLex_search st text embedding lang limit return_scores return_embeddings).1 = st
    ∧ (ESServiceDesk_search st text embedding lang category limit
        return_scores return_embeddings).1 = st := by
  refine ⟨?_, ?_, ?_, ?_⟩ <;>
    simp [ESConceptDetection_search, ESGraphSearch_search, ESLex_search,
      ESServiceDesk_search, es_search_fst]

/-- C10: calling the graph-node search with a single string is exactly the
same as calling it with the corresponding one-element list — the public
method normalizes a string input into a singleton list before building the
query. -/
theorem graphsearch_string_singleton (st : ESState) (t : String)
    (node_type : FilterVal) (limit : Nat) (return_links return_scores : Bool) :
    ESGraphSearch_search st (Sum.inl t) node_type limit return_links return_scores
      = ESGraphSearch_search st (Sum.inr [t]) node_type limit return_links return_scores := rfl

lemma valid_conn_none (file_exists : String → Bool) (config : List (String × String))
    (h : invalid_config file_exists config) : valid_conn file_exists config = none := by
  unfold valid_conn
  rcases h with h | h | h | h | h | ⟨ca, hca, hfe⟩ <;>
  · cases hh : config.lookup "host" <;> cases hp : config.lookup "port" <;>
      cases hu : config.lookup "username" <;> cases hpw : config.lookup "password" <;>
        cases hc : config.lookup "cafile" <;> simp_all

/-- C3 counterexample: constructing with an invalid (empty) configuration
does isolate the failure into the sentinel `client = None` state, but a
subsequent search call fails with the raw attribute error of calling a method
on the null client — not with the typed `BackendUnavailable` the claim
states. -/
theorem search_unavailable_counterexample :
    (es_init (fun _ _ _ _ _ => fun _ => []) (fun _ => false) [] "idx").client = none
    ∧ (ESConceptDetection_search
        (es_init (fun _ _ _ _ _ => fun _ => []) (fun _ => false) [] "idx") "q" 10).2
      = Except.error ESError.attributeError
    ∧ (Except.error ESError.attributeError : Except ESError (List Hit))
      ≠ Except.error ESError.backendUnavailable := by
  refine ⟨rfl, rfl, ?_⟩
  intro hc
  injection hc with h2
  exact absurd h2 (by decide)

/-- C3 amended: an invalid configuration is isolated at construction time
into the sentinel `client = None` state, and every subsequent search call
against that unavailable connection fails by raising the attribute error of
invoking a method on the null client (a raw error, not the typed
`BackendUnavailable`), a failure still distinguishable from a valid zero-hit
result. -/
theorem search_unavailable_amended
    (connect : String → String → String → String → String → Client)
    (file_exists : String → Bool) (config : List (String × String)) (index : String)
    (st : ESState) (text : String) (limit : Nat)
    (texts : Sum String (List String)) (node_type : FilterVal)
    (return_links return_scores return_embeddings : Bool)
    (embedding : Option (List Rat)) (lang category : FilterVal) :
    (invalid_config file_exists config →
      (es_init connect file_exists config index).client = none)
    ∧ (st.client = none →
        (ESConceptDetection_search st text limit).2 = Except.error ESError.attributeError
        ∧ (ESGraphSearch_search st texts node_type limit return_links return_scores).2
          = Except.error ESError.attributeError
        ∧ (ESLex_search st text embedding lang limit return_scores return_embeddings).2
          = Except.error ESError.attributeError
        ∧ (ESServiceDesk_search st text embedding lang category limit
            return_scores return_embeddings).2 = Except.error ESError.attributeError)
    ∧ (Except.error ESError.attributeError : Except ESError (List Hit)) ≠ Except.ok [] := by
  refine ⟨?_, ?_, by simp⟩
  · intro hinv
    simp [es_init, valid_conn_none file_exists config hinv]
  · intro hcl
    refine ⟨?_, ?_, ?_, ?_⟩ <;>
      simp [ESConceptDetection_search, ESGraphSearch_search, ESLex_search,
        ESServiceDesk_search, es_search, hcl, Except.map]

/-- Witness for C3 (amended): the empty configuration is invalid, yields the
sentinel state, and a concrete concept-detection call against it raises the
attribute error. -/
theorem search_unavailable_amended_witness :
    invalid_config (fun _ => false) []
    ∧ (es_init (fun _ _ _ _ _ => fun _ => []) (fun _ => false) [] "idx").client = none
    ∧ (ESConceptDetection_search (ESState.mk none "idx") "q" 10).2
      = Except.error ESError.attributeError :=
  ⟨Or.inl rfl,
   (search_unavailable_amended (fun _ _ _ _ _ => fun _ => []) (fun _ => false) [] "idx"
      (ESState.mk none "idx") "q" 10 (Sum.inl "q") FilterVal.null false false false
      none FilterVal.null FilterVal.null).1 (Or.inl rfl),
   ((search_unavailable_amended (fun _ _ _ _ _ => fun _ => []) (fun _ => false) [] "idx"
      (ESState.mk none "idx") "q" 10 (Sum.inl "q") FilterVal.null false false false
      none FilterVal.null FilterVal.null).2.1 rfl).1⟩

lemma eraseKey_eraseKey (k : String) (l : List (String × J)) :
    eraseKey k (eraseKey k l) = eraseKey k l := by
  simp [eraseKey, List.filter_filter]

lemma eraseKey_setKey (k : String) (v : J) (l : List (String × J)) :
    eraseKey k (setKey k v l) = eraseKey k l := by
  rw [setKey]
  show List.filter (fun p => !(p.1 == k)) ((k, v) :: eraseKey k l) = eraseKey k l
  rw [List.filter_cons_of_neg (by simp)]
  exact eraseKey_eraseKey k l

lemma setKey_setKey (k : String) (v : J) (l : List (String × J)) :
    setKey k v (setKey k v l) = setKey k v l := by
  show (k, v) :: eraseKey k (setKey k v l) = setKey k v l
  rw [eraseKey_setKey, setKey]

lemma getKey_eraseKey_ne (key other : String) (l : List (String × J))
    (h : other ≠ key) : getKey (eraseKey key l) other = getKey l other := by
  unfold getKey eraseKey
  rw [findq_filter]
  intro x hx
  have hx1 : x.1 = other := by simpa using hx
  simp [hx1, h]

lemma getKey_setKey_ne (key other : String) (v : J) (l : List (String × J))
    (h : other ≠ key) : getKey (setKey key v l) other = getKey l other := by
  rw [setKey, getKey, List.find?_cons_of_neg _ (by simp [Ne.symm h])]
  exact getKey_eraseKey_ne key other l h

lemma eraseKey_getKey_none (key : String) (l : List (String × J))
    (h : getKey l key = none) : eraseKey key l = l := by
  unfold eraseKey
  apply List.filter_eq_self.mpr
  intro a ha
  have h2 : l.find? (fun p => p.1 == key) = none := Option.map_eq_none'.mp h
  simpa using List.find?_eq_none.mp h2 a ha

lemma ios_hit_idem (flag : Bool) (h : Hit) :
    ios_hit flag (ios_hit flag h) = ios_hit flag h := by
  cases flag <;> simp [ios_hit, setKey_setKey, eraseKey_eraseKey]

lemma ioe_hit_idem (flag : Bool) (h : Hit) :
    ioe_hit flag (ioe_hit flag h) = ioe_hit flag h := by
  cases flag <;> simp [ioe_hit, setKey_setKey, eraseKey_eraseKey]

lemma ios_hit_getKey_ne (flag : Bool) (h : Hit) (k : String) (hk : k ≠ "score") :
    getKey (ios_hit flag h).source k = getKey h.source k := by
  cases flag
  · exact getKey_eraseKey_ne "score" k h.source hk
  · exact getKey_setKey_ne "score" k (J.num h.score) h.source hk

lemma ioe_hit_getKey_ne (flag : Bool) (h : Hit) (k : String) (hk : k ≠ "embedding") :
    getKey (ioe_hit flag h).source k = getKey h.source k := by
  cases flag
  · exact getKey_eraseKey_ne "embedding" k h.source hk
  · exact getKey_setKey_ne "embedding" k h.embedding h.source hk

lemma ios_hit_true_false (h : Hit) : ios_hit false (ios_hit true h) = ios_hit false h := by
  show ({ h with source := eraseKey "score" (setKey "score" (J.num h.score) h.source) } : Hit)
    = { h with source := eraseKey "score" h.source }
  rw [eraseKey_setKey]

lemma ioe_hit_true_false (h : Hit) : ioe_hit false (ioe_hit true h) = ioe_hit false h := by
  show ({ h with source := eraseKey "embedding" (setKey "embedding" h.embedding h.source) } : Hit)
    = { h with source := eraseKey "embedding" h.source }
  rw [eraseKey_setKey]

lemma ios_hit_clean (h : Hit) (hc : getKey h.source "score" = none) :
    ios_hit false (ios_hit true h) = h := by
  rw [ios_hit_true_false]
  show ({ h with source := eraseKey "score" h.source } : Hit) = h
  rw [eraseKey_getKey_none _ _ hc]

lemma ioe_hit_clean (h : Hit) (hc : getKey h.source "embedding" = none) :
    ioe_hit false (ioe_hit true h) = h := by
  rw [ioe_hit_true_false]
  show ({ h with source := eraseKey "embedding" h.source } : Hit) = h
  rw [eraseKey_getKey_none _ _ hc]

/-- C8: the score-shaping and vector-shaping utilities are idempotent
(applying twice with the same flag equals applying once), order-preserving
(length is kept and every other key of every hit's stored-field mapping is
unchanged pointwise), and applying with flag true and then flag false removes
exactly the field that was added and nothing else (on hits that did not
already carry the shaped field, the round trip is the identity). -/
theorem result_shaping_algebra (hits : List Hit) (flag : Bool) :
    include_or_exclude_scores (include_or_exclude_scores hits flag) flag
      = include_or_exclude_scores hits flag
    ∧ include_or_exclude_embeddings (include_or_exclude_embeddings hits flag) flag
      = include_or_exclude_embeddings hits flag
    ∧ (include_or_exclude_scores hits flag).length = hits.length
    ∧ (include_or_exclude_embeddings hits flag).length = hits.length
    ∧ (∀ k, k ≠ "score" →
        (include_or_exclude_scores hits flag).map (fun h => getKey h.source k)
          = hits.map (fun h => getKey h.source k))
    ∧ (∀ k, k ≠ "embedding" →
        (include_or_exclude_embeddings hits flag).map (fun h => getKey h.source k)
          = hits.map (fun h => getKey h.source k))
    ∧ include_or_exclude_scores (include_or_exclude_scores hits true) false
      = include_or_exclude_scores hits false
    ∧ include_or_exclude_embeddings (include_or_exclude_embeddings hits true) false
      = include_or_exclude_embeddings hits false
    ∧ ((∀ h ∈ hits, getKey h.source "score" = none) →
        include_or_exclude_scores (include_or_exclude_scores hits true) false = hits)
    ∧ ((∀ h ∈ hits, getKey h.source "embedding" = none) →
        include_or_exclude_embeddings (include_or_exclude_embeddings hits true) false = hits) := by
  refine ⟨?_, ?_, ?_, ?_, ?_, ?_, ?_, ?_, ?_, ?_⟩
  · simp [include_or_exclude_scores, List.map_map, Function.comp, ios_hit_idem]
  · simp [include_or_exclude_embeddings, List.map_map, Function.comp, ioe_hit_idem]
  · simp [include_or_exclude_scores]
  · simp [include_or_exclude_embeddings]
  · intro k hk
    simp only [include_or_exclude_scores, List.map_map]
    exact List.map_congr_left (fun h _ => ios_hit_getKey_ne flag h k hk)
  · intro k hk
    simp only [include_or_exclude_embeddings, List.map_map]
    exact List.map_congr_left (fun h _ => ioe_hit_getKey_ne flag h k hk)
  · simp [include_or_exclude_scores, List.map_map, Function.comp, ios_hit_true_false]
  · simp [include_or_exclude_embeddings, List.map_map, Function.comp, ioe_hit_true_false]
  · intro hclean
    simp only [include_or_exclude_scores, List.map_map]
    have hcong : ∀ h ∈ hits, (ios_hit false ∘ ios_hit true) h = id h :=
      fun h hm => ios_hit_clean h (hclean h hm)
    rw [List.map_congr_left hcong, List.map_id]
  · intro hclean
    simp only [include_or_exclude_embeddings, List.map_map]
    have hcong : ∀ h ∈ hits, (ioe_hit false ∘ ioe_hit true) h = id h :=
      fun h hm => ioe_hit_clean h (hclean h hm)
    rw [List.map_congr_left hcong, List.map_id]

/-- Witness for C8: on a concrete one-hit list without a pre-existing score
field, attaching and then stripping the score is the identity. -/
theorem result_shaping_algebra_witness :
    (∀ h ∈ [(⟨[("title", J.str "t")], 2, J.arr []⟩ : Hit)], getKey h.source "score" = none)
    ∧ include_or_exclude_scores
        (include_or_exclude_scores [(⟨[("title", J.str "t")], 2, J.arr []⟩ : Hit)] true) false
      = [(⟨[("title", J.str "t")], 2, J.arr []⟩ : Hit)] :=
  ⟨fun h hm => by rw [List.mem_singleton] at hm ; subst hm ; rfl,
   (result_shaping_algebra [(⟨[("title", J.str "t")], 2, J.arr []⟩ : Hit)] true).2.2.2.2.2.2.2.2.1
     (fun h hm => by rw [List.mem_singleton] at hm ; subst hm ; rfl)⟩
